import Mathlib

/-!
Verification of the chartx DX12 native backend
(`src/main/native/dx12/include/DX12Common.h` and
`src/main/native/dx12/src/DX12Native.cpp`) against its design
specification.  The C++ code is shallowly embedded: the handle registry
becomes an explicit state machine, JNI entry points become functions on
that state, GPU objects become opaque numeric identifiers, and outcomes
of external OS / driver calls (adapter enumeration, device creation,
event creation, PSO compilation) become boolean oracles supplied as
arguments.
-/

/-! ## Handle registry (`HandleManager` in DX12Common.h)

`HandleManager` keeps an `unordered_map<jlong, IUnknown*> objects_` and a
counter `jlong nextHandle_` initialised to 1.  `store` of a non-null
object returns `nextHandle_++` and inserts the mapping; `store(nullptr)`
returns 0; `get` looks the handle up, returning null when absent;
`release` erases the entry when present and is a no-op otherwise.
Objects are modelled as opaque `Nat` identifiers; the map is an
association list whose keys are shown pairwise distinct. -/

structure HandleManagerState where
  objects : List (Nat × Nat)
  nextHandle : Nat
deriving Repr, DecidableEq

/-- The constructor body `HandleManager() : nextHandle_(1) {}` with an
empty map. -/
def HandleManagerState.start : HandleManagerState := ⟨[], 1⟩

/-- `store`: null objects give handle 0 and leave the state unchanged;
otherwise the object is inserted under the fresh handle `nextHandle_`
and the counter is incremented. -/
def HandleManagerState.store (st : HandleManagerState) (obj : Option Nat) :
    Nat × HandleManagerState :=
  match obj with
  | none => (0, st)
  | some o => (st.nextHandle, ⟨(st.nextHandle, o) :: st.objects, st.nextHandle + 1⟩)

/-- `get`: find the entry with the given key, return its object, else null. -/
def HandleManagerState.get (st : HandleManagerState) (h : Nat) : Option Nat :=
  match st.objects.find? (fun p => p.fst == h) with
  | some p => some p.snd
  | none => none

/-- `release`: if the handle is present, drop its entry (the underlying
COM `Release` is a side effect on the driver object, outside the
registry state); if absent, do nothing. -/
def HandleManagerState.release (st : HandleManagerState) (h : Nat) :
    HandleManagerState :=
  match st.objects.find? (fun p => p.fst == h) with
  | some _ => ⟨st.objects.filter (fun p => !(p.fst == h)), st.nextHandle⟩
  | none => st

/-- One registry operation of a `store`/`get`/`release` trace. -/
inductive RegOp where
  | storeObj (obj : Option Nat)
  | releaseH (h : Nat)
  | getH (h : Nat)
deriving Repr, DecidableEq

/-- Run a trace of registry operations (`get` reads but does not change
the state). -/
def runOps : List RegOp → HandleManagerState → HandleManagerState
  | [], st => st
  | .storeObj o :: rest, st => runOps rest (st.store o).2
  | .releaseH h :: rest, st => runOps rest (st.release h)
  | .getH _ :: rest, st => runOps rest st

/-- The handles returned by the successful (non-null) stores of a trace,
in order. -/
def issued : List RegOp → HandleManagerState → List Nat
  | [], _ => []
  | .storeObj none :: rest, st => issued rest st
  | .storeObj (some o) :: rest, st =>
      (st.store (some o)).1 :: issued rest (st.store (some o)).2
  | .releaseH h :: rest, st => issued rest (st.release h)
  | .getH _ :: rest, st => issued rest st

/-- Registry invariant: the counter is positive, every live key is a
previously drawn counter value (positive and below the counter), and the
live keys are pairwise distinct. -/
def RegInv (st : HandleManagerState) : Prop :=
  1 ≤ st.nextHandle ∧
  (∀ p ∈ st.objects, 1 ≤ p.fst ∧ p.fst < st.nextHandle) ∧
  st.objects.Pairwise (fun p q => p.fst ≠ q.fst)

theorem regInv_start : RegInv HandleManagerState.start := by
  refine ⟨le_refl 1, ?_, ?_⟩ <;> simp [HandleManagerState.start]

theorem regInv_store {st : HandleManagerState} (h : RegInv st) (o : Option Nat) :
    RegInv (st.store o).2 := by
  obtain ⟨h1, h2, h3⟩ := h
  cases o with
  | none => exact ⟨h1, h2, h3⟩
  | some o =>
    refine ⟨Nat.le_succ_of_le h1, ?_, ?_⟩
    · intro p hp
      rcases List.mem_cons.mp hp with rfl | hp
      · exact ⟨h1, Nat.lt_succ_self _⟩
      · exact ⟨(h2 p hp).1, Nat.lt_succ_of_lt (h2 p hp).2⟩
    · refine List.pairwise_cons.mpr ⟨?_, h3⟩
      intro q hq
      exact Nat.ne_of_gt (h2 q hq).2

theorem regInv_release {st : HandleManagerState} (h : RegInv st) (k : Nat) :
    RegInv (st.release k) := by
  obtain ⟨h1, h2, h3⟩ := h
  unfold HandleManagerState.release
  cases st.objects.find? (fun p => p.fst == k) with
  | none => exact ⟨h1, h2, h3⟩
  | some p =>
    refine ⟨h1, ?_, ?_⟩
    · intro q hq
      exact h2 q (List.mem_of_mem_filter hq)
    · exact List.Pairwise.filter _ h3

theorem regInv_runOps {st : HandleManagerState} (h : RegInv st)
    (ops : List RegOp) : RegInv (runOps ops st) := by
  induction ops generalizing st with
  | nil => exact h
  | cons op rest ih =>
    cases op with
    | storeObj o => exact ih (regInv_store h o)
    | releaseH k => exact ih (regInv_release h k)
    | getH k => exact ih h

/-- The counter never decreases along a trace. -/
theorem nextHandle_mono (ops : List RegOp) (st : HandleManagerState) :
    st.nextHandle ≤ (runOps ops st).nextHandle := by
  induction ops generalizing st with
  | nil => exact le_refl _
  | cons op rest ih =>
    cases op with
    | storeObj o =>
      refine le_trans ?_ (ih (st.store o).2)
      cases o with
      | none => exact le_refl _
      | some o => exact Nat.le_succ _
    | releaseH k =>
      refine le_trans ?_ (ih (st.release k))
      unfold HandleManagerState.release
      cases st.objects.find? (fun p => p.fst == k) <;> exact le_refl _
    | getH k => exact ih st

/-- Every handle issued along a trace lies below the final counter value. -/
theorem issued_lt_nextHandle (ops : List RegOp) (st : HandleManagerState) :
    ∀ h ∈ issued ops st, h < (runOps ops st).nextHandle := by
  induction ops generalizing st with
  | nil => intro h hh; simp [issued] at hh
  | cons op rest ih =>
    cases op with
    | storeObj o =>
      cases o with
      | none =>
        intro h hh
        exact ih (st.store none).2 h hh
      | some o =>
        intro h hh
        rcases List.mem_cons.mp hh with rfl | hh
        · calc (st.store (some o)).1 < (st.store (some o)).2.nextHandle := by
                simp [HandleManagerState.store]
            _ ≤ _ := nextHandle_mono rest _
        · exact ih (st.store (some o)).2 h hh
    | releaseH k =>
      intro h hh
      exact ih (st.release k) h hh
    | getH k =>
      intro h hh
      exact ih st h hh

/-- Every key live after a trace was either issued by the trace or was
already live at its start. -/
theorem live_issued_or_old (ops : List RegOp) (st : HandleManagerState) :
    ∀ p ∈ (runOps ops st).objects,
      p.fst ∈ issued ops st ∨ ∃ q ∈ st.objects, q.fst = p.fst := by
  induction ops generalizing st with
  | nil =>
    intro p hp
    exact Or.inr ⟨p, hp, rfl⟩
  | cons op rest ih =>
    cases op with
    | storeObj o =>
      cases o with
      | none =>
        intro p hp
        exact ih (st.store none).2 p hp
      | some o =>
        intro p hp
        rcases ih (st.store (some o)).2 p hp with hi | ⟨q, hq, hqe⟩
        · exact Or.inl (List.mem_cons_of_mem _ hi)
        · rcases List.mem_cons.mp hq with rfl | hq
          · left
            have hpe : p.fst = st.nextHandle := by
              simpa [HandleManagerState.store] using hqe.symm
            simp only [issued, HandleManagerState.store, hpe]
            exact List.mem_cons_self _ _
          · exact Or.inr ⟨q, hq, hqe⟩
    | releaseH k =>
      intro p hp
      rcases ih (st.release k) p hp with hi | ⟨q, hq, hqe⟩
      · exact Or.inl hi
      · refine Or.inr ⟨q, ?_, hqe⟩
        unfold HandleManagerState.release at hq
        split at hq
        · exact List.mem_of_mem_filter hq
        · exact hq
    | getH k =>
      intro p hp
      exact ih st p hp

/-- find? after a release never finds the released key again. -/
theorem find?_release_same (st : HandleManagerState) (h : Nat) :
    (st.release h).objects.find? (fun p => p.fst == h) = none := by
  unfold HandleManagerState.release
  split
  · rw [List.find?_eq_none]
    intro x hx
    simpa using List.of_mem_filter hx
  · next heq => exact heq

/-- Releasing a handle that is not in the map leaves the state unchanged. -/
theorem release_not_found (st : HandleManagerState) (h : Nat)
    (hf : st.objects.find? (fun p => p.fst == h) = none) :
    st.release h = st := by
  unfold HandleManagerState.release
  rw [hf]

/-- get of a handle that is not in the map returns null. -/
theorem get_not_found (st : HandleManagerState) (h : Nat)
    (hf : st.objects.find? (fun p => p.fst == h) = none) :
    st.get h = none := by
  unfold HandleManagerState.get
  rw [hf]

/-- A handle that was never issued by a trace starting from the initial
state is not a key of the final map. -/
theorem not_found_of_not_issued (ops : List RegOp) (h : Nat)
    (hni : h ∉ issued ops HandleManagerState.start) :
    (runOps ops HandleManagerState.start).objects.find?
      (fun p => p.fst == h) = none := by
  rw [List.find?_eq_none]
  intro p hp
  rcases live_issued_or_old ops HandleManagerState.start p hp with hi | ⟨q, hq, _⟩
  · simp only [beq_iff_eq]
    intro hcontra
    exact hni (hcontra ▸ hi)
  · simp [HandleManagerState.start] at hq

/-- Handle 0 is never a key of a reachable map (all keys are positive). -/
theorem find?_zero_none (ops : List RegOp) :
    (runOps ops HandleManagerState.start).objects.find?
      (fun p => p.fst == 0) = none := by
  rw [List.find?_eq_none]
  intro p hp
  have hinv := regInv_runOps regInv_start ops
  have := (hinv.2.1 p hp).1
  simp only [beq_iff_eq]
  omega

/-- C2: in every state reachable by a `store`/`get`/`release` trace from
the initial registry, storing a non-null object returns a non-zero
handle distinct from the handle of every live object, and no two live
objects share a handle value. -/
theorem store_fresh_handle_unique (ops : List RegOp) (o : Nat) :
    ((runOps ops HandleManagerState.start).store (some o)).1 ≠ 0
    ∧ (∀ p ∈ (runOps ops HandleManagerState.start).objects,
        p.fst ≠ ((runOps ops HandleManagerState.start).store (some o)).1)
    ∧ (runOps ops HandleManagerState.start).objects.Pairwise
        (fun p q => p.fst ≠ q.fst) := by
  have hinv := regInv_runOps regInv_start ops
  refine ⟨?_, ?_, hinv.2.2⟩
  · have h1 := hinv.1
    show (runOps ops HandleManagerState.start).nextHandle ≠ 0
    omega
  · intro p hp
    have h2 := (hinv.2.1 p hp).2
    show p.fst ≠ (runOps ops HandleManagerState.start).nextHandle
    omega

/-- Witness for C2 on a concrete trace: store, store-null, release, store. -/
theorem store_fresh_handle_unique_witness :
    ((runOps [.storeObj (some 7), .storeObj none, .releaseH 1,
        .storeObj (some 9)] HandleManagerState.start).store (some 5)).1 ≠ 0
    ∧ (∀ p ∈ (runOps [.storeObj (some 7), .storeObj none, .releaseH 1,
        .storeObj (some 9)] HandleManagerState.start).objects,
        p.fst ≠ ((runOps [.storeObj (some 7), .storeObj none, .releaseH 1,
          .storeObj (some 9)] HandleManagerState.start).store (some 5)).1)
    ∧ (runOps [.storeObj (some 7), .storeObj none, .releaseH 1,
        .storeObj (some 9)] HandleManagerState.start).objects.Pairwise
        (fun p q => p.fst ≠ q.fst) :=
  store_fresh_handle_unique
    [.storeObj (some 7), .storeObj none, .releaseH 1, .storeObj (some 9)] 5

/-- C3: in every reachable registry state, `get 0` is null; `get` of a
never-issued handle is null and releasing it is a no-op; `get` of a
just-released handle is null (never a stale object); `store(null)`
returns handle 0 and changes nothing; and a second release of the same
handle is an idempotent no-op on the registry state. -/
theorem invalid_handle_noops (ops : List RegOp) (h k : Nat)
    (hni : h ∉ issued ops HandleManagerState.start) :
    (runOps ops HandleManagerState.start).get 0 = none
    ∧ (runOps ops HandleManagerState.start).get h = none
    ∧ (runOps ops HandleManagerState.start).release h
        = runOps ops HandleManagerState.start
    ∧ ((runOps ops HandleManagerState.start).release k).get k = none
    ∧ ((runOps ops HandleManagerState.start).store none).1 = 0
    ∧ ((runOps ops HandleManagerState.start).store none).2
        = runOps ops HandleManagerState.start
    ∧ ((runOps ops HandleManagerState.start).release k).release k
        = (runOps ops HandleManagerState.start).release k := by
  refine ⟨get_not_found _ _ (find?_zero_none ops),
    get_not_found _ _ (not_found_of_not_issued ops h hni),
    release_not_found _ _ (not_found_of_not_issued ops h hni),
    get_not_found _ _ (find?_release_same _ k),
    rfl, rfl,
    release_not_found _ _ (find?_release_same _ k)⟩

/-- Witness for C3: after storing object 7 (handle 1) and releasing it,
handle 5 was never issued and handle 1 is released. -/
theorem invalid_handle_noops_witness :
    (5 ∉ issued [.storeObj (some 7), .releaseH 1] HandleManagerState.start)
    ∧ ((runOps [.storeObj (some 7), .releaseH 1] HandleManagerState.start).get 0 = none
    ∧ (runOps [.storeObj (some 7), .releaseH 1] HandleManagerState.start).get 5 = none
    ∧ (runOps [.storeObj (some 7), .releaseH 1] HandleManagerState.start).release 5
        = runOps [.storeObj (some 7), .releaseH 1] HandleManagerState.start
    ∧ ((runOps [.storeObj (some 7), .releaseH 1] HandleManagerState.start).release 1).get 1 = none
    ∧ ((runOps [.storeObj (some 7), .releaseH 1] HandleManagerState.start).store none).1 = 0
    ∧ ((runOps [.storeObj (some 7), .releaseH 1] HandleManagerState.start).store none).2
        = runOps [.storeObj (some 7), .releaseH 1] HandleManagerState.start
    ∧ ((runOps [.storeObj (some 7), .releaseH 1] HandleManagerState.start).release 1).release 1
        = (runOps [.storeObj (some 7), .releaseH 1] HandleManagerState.start).release 1) :=
  ⟨by decide, invalid_handle_noops [.storeObj (some 7), .releaseH 1] 5 1 (by decide)⟩

/-- C10: the registry counter is strictly monotone — a store after any
trace returns a handle strictly greater than every handle the trace
issued, so handle values are never reused within the process lifetime,
even after release. -/
theorem handle_never_reused (ops : List RegOp) (o : Nat) :
    ∀ h ∈ issued ops HandleManagerState.start,
      h < ((runOps ops HandleManagerState.start).store (some o)).1 := by
  intro h hh
  have := issued_lt_nextHandle ops HandleManagerState.start h hh
  simpa [HandleManagerState.store] using this

/-- Witness for C10: handle 1 was issued and then released; the next
store still returns the strictly larger handle 2. -/
theorem handle_never_reused_witness :
    (1 ∈ issued [.storeObj (some 7), .releaseH 1] HandleManagerState.start)
    ∧ 1 < ((runOps [.storeObj (some 7), .releaseH 1]
        HandleManagerState.start).store (some 9)).1 :=
  ⟨by decide, handle_never_reused [.storeObj (some 7), .releaseH 1] 9 1 (by decide)⟩

/-! ## Blend state (`GetBlendDesc` in DX12Common.h)

The D3D12 enumeration values used by the switch, by their numeric values
in `d3d12.h`, and the `D3D12_RENDER_TARGET_BLEND_DESC` fields it
assigns.  The descriptor starts zero-initialised (`= {}`). -/

def D3D12_BLEND_ZERO : Nat := 1

def D3D12_BLEND_ONE : Nat := 2

def D3D12_BLEND_SRC_ALPHA : Nat := 5

def D3D12_BLEND_INV_SRC_ALPHA : Nat := 6

def D3D12_BLEND_DEST_ALPHA : Nat := 7

def D3D12_BLEND_DEST_COLOR : Nat := 9

def D3D12_BLEND_OP_ADD : Nat := 1

def D3D12_LOGIC_OP_NOOP : Nat := 4

def D3D12_COLOR_WRITE_ENABLE_ALL : Nat := 15

/-- Blend mode constants (the `BlendModeInt` enum, matching the Java enum). -/
def BLEND_NONE : Int := 0

def BLEND_ALPHA : Int := 1

def BLEND_ADDITIVE : Int := 2

def BLEND_MULTIPLY : Int := 3

def BLEND_PREMULTIPLIED_ALPHA : Int := 4

structure RenderTargetBlendDesc where
  blendEnable : Bool
  logicOpEnable : Bool
  srcBlend : Nat
  destBlend : Nat
  blendOp : Nat
  srcBlendAlpha : Nat
  destBlendAlpha : Nat
  blendOpAlpha : Nat
  logicOp : Nat
  renderTargetWriteMask : Nat
deriving Repr, DecidableEq

/-- The zero-initialised descriptor with the three fields the function
sets before the switch. -/
def blendDescBase : RenderTargetBlendDesc :=
  ⟨false, false, 0, 0, 0, 0, 0, 0, D3D12_LOGIC_OP_NOOP, D3D12_COLOR_WRITE_ENABLE_ALL⟩

/-- `GetBlendDesc`: switch on the integer blend mode; an unknown mode
falls through leaving the zero-initialised descriptor. -/
def GetBlendDesc (blendMode : Int) : RenderTargetBlendDesc :=
  if blendMode = BLEND_NONE then
    { blendDescBase with blendEnable := false }
  else if blendMode = BLEND_ALPHA then
    { blendDescBase with
      blendEnable := true
      srcBlend := D3D12_BLEND_SRC_ALPHA
      destBlend := D3D12_BLEND_INV_SRC_ALPHA
      blendOp := D3D12_BLEND_OP_ADD
      srcBlendAlpha := D3D12_BLEND_ONE
      destBlendAlpha := D3D12_BLEND_INV_SRC_ALPHA
      blendOpAlpha := D3D12_BLEND_OP_ADD }
  else if blendMode = BLEND_ADDITIVE then
    { blendDescBase with
      blendEnable := true
      srcBlend := D3D12_BLEND_SRC_ALPHA
      destBlend := D3D12_BLEND_ONE
      blendOp := D3D12_BLEND_OP_ADD
      srcBlendAlpha := D3D12_BLEND_ONE
      destBlendAlpha := D3D12_BLEND_ONE
      blendOpAlpha := D3D12_BLEND_OP_ADD }
  else if blendMode = BLEND_MULTIPLY then
    { blendDescBase with
      blendEnable := true
      srcBlend := D3D12_BLEND_DEST_COLOR
      destBlend := D3D12_BLEND_ZERO
      blendOp := D3D12_BLEND_OP_ADD
      srcBlendAlpha := D3D12_BLEND_DEST_ALPHA
      destBlendAlpha := D3D12_BLEND_ZERO
      blendOpAlpha := D3D12_BLEND_OP_ADD }
  else if blendMode = BLEND_PREMULTIPLIED_ALPHA then
    { blendDescBase with
      blendEnable := true
      srcBlend := D3D12_BLEND_ONE
      destBlend := D3D12_BLEND_INV_SRC_ALPHA
      blendOp := D3D12_BLEND_OP_ADD
      srcBlendAlpha := D3D12_BLEND_ONE
      destBlendAlpha := D3D12_BLEND_INV_SRC_ALPHA
      blendOpAlpha := D3D12_BLEND_OP_ADD }
  else blendDescBase

/-- C4: the five integer-coded blend modes produce exactly the
(srcBlend, destBlend, op) triples of the fixed table: 0 = blending
disabled, 1 = alpha (src-alpha, inv-src-alpha, add), 2 = additive
(src-alpha, one, add), 3 = multiply (dest-color, zero, add),
4 = premultiplied alpha (one, inv-src-alpha, add). -/
theorem blend_table_exact :
    (GetBlendDesc BLEND_NONE).blendEnable = false
    ∧ (GetBlendDesc BLEND_ALPHA).blendEnable = true
    ∧ ((GetBlendDesc BLEND_ALPHA).srcBlend, (GetBlendDesc BLEND_ALPHA).destBlend,
        (GetBlendDesc BLEND_ALPHA).blendOp)
      = (D3D12_BLEND_SRC_ALPHA, D3D12_BLEND_INV_SRC_ALPHA, D3D12_BLEND_OP_ADD)
    ∧ (GetBlendDesc BLEND_ADDITIVE).blendEnable = true
    ∧ ((GetBlendDesc BLEND_ADDITIVE).srcBlend, (GetBlendDesc BLEND_ADDITIVE).destBlend,
        (GetBlendDesc BLEND_ADDITIVE).blendOp)
      = (D3D12_BLEND_SRC_ALPHA, D3D12_BLEND_ONE, D3D12_BLEND_OP_ADD)
    ∧ (GetBlendDesc BLEND_MULTIPLY).blendEnable = true
    ∧ ((GetBlendDesc BLEND_MULTIPLY).srcBlend, (GetBlendDesc BLEND_MULTIPLY).destBlend,
        (GetBlendDesc BLEND_MULTIPLY).blendOp)
      = (D3D12_BLEND_DEST_COLOR, D3D12_BLEND_ZERO, D3D12_BLEND_OP_ADD)
    ∧ (GetBlendDesc BLEND_PREMULTIPLIED_ALPHA).blendEnable = true
    ∧ ((GetBlendDesc BLEND_PREMULTIPLIED_ALPHA).srcBlend,
        (GetBlendDesc BLEND_PREMULTIPLIED_ALPHA).destBlend,
        (GetBlendDesc BLEND_PREMULTIPLIED_ALPHA).blendOp)
      = (D3D12_BLEND_ONE, D3D12_BLEND_INV_SRC_ALPHA, D3D12_BLEND_OP_ADD) := by
  decide

/-! ## Fence wait (`waitForFence` in DX12Native.cpp)

The JNI entry point reads `fence->GetCompletedValue()`; if it is below
the requested value it calls `CreateEvent`, and only if that handle is
non-null does it register `SetEventOnCompletion` and block on
`WaitForSingleObject`.  The model returns the completed value of the
fence as observed when the call returns; `eventCreated` is the outcome
of the `CreateEvent` OS call.  A successful blocking wait returns once
the fence has completed at least `value`. -/

def waitForFence (completedAtCall value : Nat) (eventCreated : Bool) : Nat :=
  if completedAtCall < value then
    if eventCreated then max completedAtCall value
    else completedAtCall
  else completedAtCall

/-- C1 (code bug evidence): when the fence has completed 0, the caller
waits for value 1 and `CreateEvent` fails, `waitForFence` returns
immediately with the completed value still 0 < 1 — an early return the
specification forbids on every execution path. -/
theorem waitForFence_returns_early_on_event_failure :
    waitForFence 0 1 false = 0 ∧ waitForFence 0 1 false < 1
    ∧ (∀ c v : Nat, v ≤ waitForFence c v true) := by
  refine ⟨rfl, by decide, ?_⟩
  intro c v
  unfold waitForFence
  split
  · simp
  · omega

/-! ## Readback row pitch (`copyTextureToBuffer` / `readBufferData`)

Both entry points compute the row pitch as `((width * 4) + 255) & ~255`
on 32-bit integers.  `~255` as a 32-bit mask is 0xFFFFFF00; the
arguments of interest keep `width * 4 + 255` below 2^31, so the C `int`
arithmetic agrees with `Nat` arithmetic under that mask. -/

def copyTextureToBuffer_rowPitch (width : Nat) : Nat :=
  (width * 4 + 255) &&& 0xFFFFFF00

def readBufferData_rowPitch (width : Nat) : Nat :=
  (width * 4 + 255) &&& 0xFFFFFF00

/-- Clearing the low 8 bits of a 32-bit value rounds it down to a
multiple of 256. -/
theorem and_mask_eq_mul_div (n : Nat) (hn : n < 2 ^ 32) :
    n &&& 0xFFFFFF00 = 256 * (n / 256) := by
  have hmask : (0xFFFFFF00 : Nat) = (2 ^ 24 - 1) <<< 8 := by decide
  have hrhs : 256 * (n / 256) = (n >>> 8) <<< 8 := by
    rw [Nat.shiftLeft_eq, Nat.shiftRight_eq_div_pow]
    show 256 * (n / 256) = n / 2 ^ 8 * 2 ^ 8
    omega
  rw [hmask, hrhs]
  apply Nat.eq_of_testBit_eq
  intro i
  rw [Nat.testBit_and, Nat.testBit_shiftLeft, Nat.testBit_shiftLeft,
    Nat.testBit_shiftRight, Nat.testBit_two_pow_sub_one]
  rcases Nat.lt_or_ge i 8 with hi | hi
  · simp [Nat.not_le.mpr hi]
  · have h8 : 8 + (i - 8) = i := by omega
    rcases Nat.lt_or_ge i 32 with h32 | h32
    · simp [hi, h8, Nat.lt_of_lt_of_le (by omega : i - 8 < 24) (le_refl _)]
    · have hbit : n.testBit i = false :=
        Nat.testBit_eq_false_of_lt
          (Nat.lt_of_lt_of_le hn (Nat.pow_le_pow_right (by omega) h32))
      simp [hi, h8, hbit]

/-- Byte contents of the readback buffer after `CopyTextureRegion` with
the placed footprint built by `copyTextureToBuffer`: the byte `c` of
source pixel `(x, y)` lands at buffer offset
`y * RowPitch + x * 4 + c`; padding bytes are modelled as 0.  `img` maps
pixel coordinates and a byte channel index to the byte value of the
W×H RGBA source image. -/
def footprintBufferByte (img : Nat → Nat → Nat → Nat) (width height : Nat)
    (offset : Nat) : Nat :=
  let rp := copyTextureToBuffer_rowPitch width
  let y := offset / rp
  let rem := offset % rp
  let x := rem / 4
  let c := rem % 4
  if x < width ∧ y < height then img x y c else 0

/-- De-striding copy of `readBufferData`: row `y` of the output is the
`width * 4` bytes starting at buffer offset `y * rowPitch`, so byte `c`
of output pixel index `y * width + x` comes from buffer offset
`y * rowPitch + x * 4 + c`. -/
def readBufferData_outByte (buf : Nat → Nat) (width : Nat)
    (x y c : Nat) : Nat :=
  buf (y * readBufferData_rowPitch width + x * 4 + c)

/-- C5: both entry points compute the same row pitch; it is the smallest
multiple of 256 that is at least `4 * width`; and reading back a buffer
laid out by the copy footprint reproduces the W×H image byte for byte
(in particular for widths that are not multiples of 64). -/
theorem readback_roundtrip (width height : Nat) (img : Nat → Nat → Nat → Nat)
    (x y c : Nat) (hw : 1 ≤ width) (hbound : width * 4 + 255 < 2 ^ 31)
    (hx : x < width) (hy : y < height) (hc : c < 4) :
    copyTextureToBuffer_rowPitch width = readBufferData_rowPitch width
    ∧ copyTextureToBuffer_rowPitch width = 256 * ((width * 4 + 255) / 256)
    ∧ 256 ∣ copyTextureToBuffer_rowPitch width
    ∧ width * 4 ≤ copyTextureToBuffer_rowPitch width
    ∧ (∀ m, 256 ∣ m → width * 4 ≤ m → copyTextureToBuffer_rowPitch width ≤ m)
    ∧ readBufferData_outByte (footprintBufferByte img width height) width x y c
        = img x y c := by
  have hpitch : copyTextureToBuffer_rowPitch width
      = 256 * ((width * 4 + 255) / 256) := by
    unfold copyTextureToBuffer_rowPitch
    exact and_mask_eq_mul_div _ (by omega)
  have hge : width * 4 ≤ copyTextureToBuffer_rowPitch width := by
    rw [hpitch]; omega
  refine ⟨rfl, hpitch, ⟨_, hpitch⟩, hge, ?_, ?_⟩
  · intro m hm hle
    obtain ⟨q, rfl⟩ := hm
    rw [hpitch]
    have : (width * 4 + 255) / 256 ≤ q := by omega
    omega
  · unfold readBufferData_outByte footprintBufferByte
    have hrp : readBufferData_rowPitch width = copyTextureToBuffer_rowPitch width := rfl
    rw [hrp]
    have hlt : x * 4 + c < copyTextureToBuffer_rowPitch width := by omega
    have hpos : 0 < copyTextureToBuffer_rowPitch width := by omega
    simp only []
    rw [Nat.add_assoc, Nat.mul_comm y, Nat.mul_add_div hpos, Nat.div_eq_of_lt hlt,
      Nat.add_zero, Nat.mul_add_mod, Nat.mod_eq_of_lt hlt]
    have hxd : (x * 4 + c) / 4 = x := by omega
    have hcd : (x * 4 + c) % 4 = c := by omega
    rw [hxd, hcd]
    simp [hx, hy]

/-- Witness for C5 at width 3 (not a multiple of 64, so the 12-byte rows
are padded to a 256-byte pitch), height 2, pixel (2, 1), channel 3. -/
theorem readback_roundtrip_witness :
    copyTextureToBuffer_rowPitch 3 = readBufferData_rowPitch 3
    ∧ copyTextureToBuffer_rowPitch 3 = 256 * ((3 * 4 + 255) / 256)
    ∧ 256 ∣ copyTextureToBuffer_rowPitch 3
    ∧ 3 * 4 ≤ copyTextureToBuffer_rowPitch 3
    ∧ (∀ m, 256 ∣ m → 3 * 4 ≤ m → copyTextureToBuffer_rowPitch 3 ≤ m)
    ∧ readBufferData_outByte
        (footprintBufferByte (fun x y c => 100 * x + 10 * y + c) 3 2) 3 2 1 3
        = (fun x y c => 100 * x + 10 * y + c) 2 1 3 :=
  readback_roundtrip 3 2 (fun x y c => 100 * x + 10 * y + c) 2 1 3
    (by decide) (by decide) (by decide) (by decide) (by decide)

/-! ## Command list recording (DX12Native.cpp entry points)

A `ID3D12GraphicsCommandList` is modelled by its recording state and
the sequence of commands recorded since the last reset.  The external
D3D12 runtime semantics is modelled as: `Reset` begins a fresh
recording, `Close` returns the list to the Closed state, and a
recording call on a list that is not in the Recording state is rejected
by the runtime and leaves the recorded sequence unchanged.  Each JNI
wrapper takes the result of its `GET_HANDLE` lookups as `Option`
values (`none` = null/invalid handle) and mirrors the null checks of
the C++ code; float arguments are carried as opaque `Int` payloads. -/

inductive GpuCmd where
  | drawCmd (vertexCount instanceCount startVertex startInstance : Int)
  | barrierCmd (resource : Nat) (stateBefore stateAfter : Int)
  | setPipelineCmd (pso : Nat)
  | setRenderTargetCmd (heap : Nat) (index : Int)
  | clearRenderTargetCmd (heap : Nat) (index : Int) (r g b a : Int)
  | setViewportCmd (x y w h : Int)
  | setScissorCmd (x y w h : Int)
  | setRootSignatureCmd (rootSig : Nat)
  | setRoot32BitConstantsCmd (rootParameterIndex : Int) (num : Nat)
      (values : List Int) (destOffsetIn32BitValues : Int)
  | setPrimitiveTopologyCmd (topology : Int)
  | setVertexBufferCmd (buffer : Nat) (stride size : Int)
deriving Repr, DecidableEq

inductive ListRecState where
  | closed
  | recording
deriving Repr, DecidableEq

structure CommandListState where
  recState : ListRecState
  commands : List GpuCmd
deriving Repr, DecidableEq

/-- Modelled D3D12 runtime behaviour of a recording call: append in the
Recording state, rejected (no change) otherwise. -/
def recordCmd (cl : CommandListState) (c : GpuCmd) : CommandListState :=
  match cl.recState with
  | .recording => { cl with commands := cl.commands ++ [c] }
  | .closed => cl

/-- `ID3D12GraphicsCommandList::Reset`: begin a fresh recording. -/
def listReset (_cl : CommandListState) : CommandListState :=
  ⟨.recording, []⟩

/-- `ID3D12GraphicsCommandList::Close`. -/
def listClose (cl : CommandListState) : CommandListState :=
  { cl with recState := .closed }

/-- `resetCommandList`: the pipeline-state handle is optional; the reset
happens only when both the list and the allocator handles resolve. -/
def resetCommandList (cl : Option CommandListState) (alloc : Option Nat)
    (_pso : Option Nat) : Option CommandListState :=
  match cl, alloc with
  | some c, some _ => some (listReset c)
  | _, _ => cl

/-- `closeCommandList`. -/
def closeCommandList (cl : Option CommandListState) : Option CommandListState :=
  match cl with
  | some c => some (listClose c)
  | none => none

/-- `drawInstanced`. -/
def drawInstanced (cl : Option CommandListState)
    (vertexCount instanceCount startVertex startInstance : Int) :
    Option CommandListState :=
  match cl with
  | some c => some (recordCmd c
      (.drawCmd vertexCount instanceCount startVertex startInstance))
  | none => none

/-- `resourceBarrier`: requires both the list and the resource handles. -/
def resourceBarrier (cl : Option CommandListState) (res : Option Nat)
    (stateBefore stateAfter : Int) : Option CommandListState :=
  match cl, res with
  | some c, some r => some (recordCmd c (.barrierCmd r stateBefore stateAfter))
  | _, _ => cl

/-- `setPipelineState`: requires both the list and the PSO handles. -/
def setPipelineState (cl : Option CommandListState) (pso : Option Nat) :
    Option CommandListState :=
  match cl, pso with
  | some c, some p => some (recordCmd c (.setPipelineCmd p))
  | _, _ => cl

/-- `setRenderTarget`: requires the list, the device and the heap handles. -/
def setRenderTarget (cl : Option CommandListState) (device heap : Option Nat)
    (index : Int) : Option CommandListState :=
  match cl, device, heap with
  | some c, some _, some h => some (recordCmd c (.setRenderTargetCmd h index))
  | _, _, _ => cl

/-- `clearRenderTarget`: requires the list, the device and the heap handles. -/
def clearRenderTarget (cl : Option CommandListState) (device heap : Option Nat)
    (index : Int) (r g b a : Int) : Option CommandListState :=
  match cl, device, heap with
  | some c, some _, some h =>
      some (recordCmd c (.clearRenderTargetCmd h index r g b a))
  | _, _, _ => cl

/-- `setViewport`. -/
def setViewport (cl : Option CommandListState) (x y w h : Int) :
    Option CommandListState :=
  match cl with
  | some c => some (recordCmd c (.setViewportCmd x y w h))
  | none => none

/-- `setScissorRect`. -/
def setScissorRect (cl : Option CommandListState) (x y w h : Int) :
    Option CommandListState :=
  match cl with
  | some c => some (recordCmd c (.setScissorCmd x y w h))
  | none => none

/-- `setRootSignature`: requires both the list and the root-signature
handles. -/
def setRootSignature (cl : Option CommandListState) (rootSig : Option Nat) :
    Option CommandListState :=
  match cl, rootSig with
  | some c, some r => some (recordCmd c (.setRootSignatureCmd r))
  | _, _ => cl

/-- `setGraphicsRoot32BitConstants`: forwards the caller-supplied root
parameter index, the length of the Java array as the number of 32-bit
values, the array contents, and the caller-supplied offset as
`DestOffsetIn32BitValues`. -/
def setGraphicsRoot32BitConstants (cl : Option CommandListState)
    (rootParameterIndex : Int) (values : List Int) (offset : Int) :
    Option CommandListState :=
  match cl with
  | some c => some (recordCmd c
      (.setRoot32BitConstantsCmd rootParameterIndex values.length values offset))
  | none => none

/-- `setPrimitiveTopology`. -/
def setPrimitiveTopology (cl : Option CommandListState) (topology : Int) :
    Option CommandListState :=
  match cl with
  | some c => some (recordCmd c (.setPrimitiveTopologyCmd topology))
  | none => none

/-- `setVertexBuffer`: requires both the list and the buffer handles. -/
def setVertexBuffer (cl : Option CommandListState) (buffer : Option Nat)
    (stride size : Int) : Option CommandListState :=
  match cl, buffer with
  | some c, some b => some (recordCmd c (.setVertexBufferCmd b stride size))
  | _, _ => cl

/-- Recording into a list that is not in the Recording state changes
nothing. -/
theorem recordCmd_closed (cl : CommandListState) (hcl : cl.recState = .closed)
    (c : GpuCmd) : recordCmd cl c = cl := by
  unfold recordCmd
  rw [hcl]

/-- C7: every recording entry point applied to a valid handle of a list
in the Closed state leaves the list (and in particular its recorded
command sequence) unchanged, and `resetCommandList` is a silent no-op
whenever the list handle or the allocator handle is invalid. -/
theorem closed_list_recording_noop (cl : CommandListState)
    (hcl : cl.recState = .closed)
    (r pso heap dev rs buf : Nat) (a b c d e f : Int) (vals : List Int)
    (anyCl : Option CommandListState) (alloc psoH : Option Nat) :
    drawInstanced (some cl) a b c d = some cl
    ∧ resourceBarrier (some cl) (some r) a b = some cl
    ∧ setPipelineState (some cl) (some pso) = some cl
    ∧ setRenderTarget (some cl) (some dev) (some heap) a = some cl
    ∧ clearRenderTarget (some cl) (some dev) (some heap) a b c d e = some cl
    ∧ setViewport (some cl) a b c d = some cl
    ∧ setScissorRect (some cl) a b c d = some cl
    ∧ setRootSignature (some cl) (some rs) = some cl
    ∧ setGraphicsRoot32BitConstants (some cl) a vals b = some cl
    ∧ setPrimitiveTopology (some cl) f = some cl
    ∧ setVertexBuffer (some cl) (some buf) a b = some cl
    ∧ resetCommandList anyCl none psoH = anyCl
    ∧ resetCommandList none alloc psoH = none := by
  refine ⟨?_, ?_, ?_, ?_, ?_, ?_, ?_, ?_, ?_, ?_, ?_, ?_, ?_⟩ <;>
    simp [drawInstanced, resourceBarrier, setPipelineState, setRenderTarget,
      clearRenderTarget, setViewport, setScissorRect, setRootSignature,
      setGraphicsRoot32BitConstants, setPrimitiveTopology, setVertexBuffer,
      resetCommandList, recordCmd_closed cl hcl]

/-- Witness for C7 on a concrete closed list holding one recorded draw. -/
theorem closed_list_recording_noop_witness :
    drawInstanced (some ⟨.closed, [.drawCmd 3 1 0 0]⟩) 6 1 0 0
        = some ⟨.closed, [.drawCmd 3 1 0 0]⟩
    ∧ resourceBarrier (some ⟨.closed, [.drawCmd 3 1 0 0]⟩) (some 4) 6 1
        = some ⟨.closed, [.drawCmd 3 1 0 0]⟩
    ∧ setPipelineState (some ⟨.closed, [.drawCmd 3 1 0 0]⟩) (some 5)
        = some ⟨.closed, [.drawCmd 3 1 0 0]⟩
    ∧ setRenderTarget (some ⟨.closed, [.drawCmd 3 1 0 0]⟩) (some 7) (some 8) 6
        = some ⟨.closed, [.drawCmd 3 1 0 0]⟩
    ∧ clearRenderTarget (some ⟨.closed, [.drawCmd 3 1 0 0]⟩) (some 7) (some 8) 6 1 2 3 4
        = some ⟨.closed, [.drawCmd 3 1 0 0]⟩
    ∧ setViewport (some ⟨.closed, [.drawCmd 3 1 0 0]⟩) 6 1 2 3
        = some ⟨.closed, [.drawCmd 3 1 0 0]⟩
    ∧ setScissorRect (some ⟨.closed, [.drawCmd 3 1 0 0]⟩) 6 1 2 3
        = some ⟨.closed, [.drawCmd 3 1 0 0]⟩
    ∧ setRootSignature (some ⟨.closed, [.drawCmd 3 1 0 0]⟩) (some 9)
        = some ⟨.closed, [.drawCmd 3 1 0 0]⟩
    ∧ setGraphicsRoot32BitConstants (some ⟨.closed, [.drawCmd 3 1 0 0]⟩) 6 [11, 12] 1
        = some ⟨.closed, [.drawCmd 3 1 0 0]⟩
    ∧ setPrimitiveTopology (some ⟨.closed, [.drawCmd 3 1 0 0]⟩) 2
        = some ⟨.closed, [.drawCmd 3 1 0 0]⟩
    ∧ setVertexBuffer (some ⟨.closed, [.drawCmd 3 1 0 0]⟩) (some 10) 6 1
        = some ⟨.closed, [.drawCmd 3 1 0 0]⟩
    ∧ resetCommandList (some ⟨.closed, [.drawCmd 3 1 0 0]⟩) none (some 5)
        = some ⟨.closed, [.drawCmd 3 1 0 0]⟩
    ∧ resetCommandList none (some 2) (some 5) = none :=
  closed_list_recording_noop ⟨.closed, [.drawCmd 3 1 0 0]⟩ rfl
    4 5 8 7 9 10 6 1 2 3 4 2 [11, 12]
    (some ⟨.closed, [.drawCmd 3 1 0 0]⟩) (some 2) (some 5)

/-! ## Root signature contract (`CreateRootSignature` in DX12Native.cpp)

The fixed root signature: parameter 0 is a block of 20 inline 32-bit
constants (mat4 + vec4) at shader register 0, parameter 1 a one-slot
SRV descriptor table, plus one static clamp sampler with linear
filtering. -/

structure RootConstantsParam where
  shaderRegister : Nat
  registerSpace : Nat
  num32BitValues : Nat
deriving Repr, DecidableEq

structure RootSignatureDesc where
  numParameters : Nat
  constantsParamIndex : Nat
  constantsParam : RootConstantsParam
  srvTableParamIndex : Nat
  srvTableNumDescriptors : Nat
  numStaticSamplers : Nat
deriving Repr, DecidableEq

/-- The descriptor built by `CreateRootSignature`. -/
def chartxRootSignatureDesc : RootSignatureDesc :=
  ⟨2, 0, ⟨0, 0, 20⟩, 1, 1, 1⟩

/-- C9 counterexample: on a valid Recording list, a call with
`rootParameterIndex = 1` records an inline-constant upload into root
parameter 1, not into root parameter 0 as the claim states for every
call; the index is forwarded from the caller, not fixed to 0. -/
theorem setRoot32BitConstants_not_always_param0 :
    setGraphicsRoot32BitConstants (some ⟨.recording, []⟩) 1 [5] 0
      = some ⟨.recording, [.setRoot32BitConstantsCmd 1 1 [5] 0]⟩
    ∧ setGraphicsRoot32BitConstants (some ⟨.recording, []⟩) 1 [5] 0
      ≠ some ⟨.recording, [.setRoot32BitConstantsCmd 0 1 [5] 0]⟩ := by
  constructor
  · rfl
  · decide

/-- C9 (amended): on a valid Recording list the call appends exactly one
command that uploads the full values array as an inline constant block
into the root parameter selected by the caller-supplied
`rootParameterIndex` argument, at the caller-supplied destination
offset counted in 32-bit values; the fixed root binding contract places
the 20-constant block at root parameter 0, so the block is targeted
exactly when the caller passes index 0. -/
theorem setRoot32BitConstants_records_full_array (cl : CommandListState)
    (hcl : cl.recState = .recording) (idx : Int) (vals : List Int)
    (offset : Int) :
    setGraphicsRoot32BitConstants (some cl) idx vals offset
      = some ⟨.recording,
          cl.commands ++ [.setRoot32BitConstantsCmd idx vals.length vals offset]⟩
    ∧ chartxRootSignatureDesc.constantsParamIndex = 0
    ∧ chartxRootSignatureDesc.constantsParam.num32BitValues = 20 := by
  refine ⟨?_, rfl, rfl⟩
  simp [setGraphicsRoot32BitConstants, recordCmd, hcl]

/-- Witness for the amended C9 on a concrete recording list. -/
theorem setRoot32BitConstants_records_full_array_witness :
    setGraphicsRoot32BitConstants (some ⟨.recording, [.setViewportCmd 0 0 8 8]⟩)
        0 [1, 2, 3] 4
      = some ⟨.recording, [.setViewportCmd 0 0 8 8,
          .setRoot32BitConstantsCmd 0 3 [1, 2, 3] 4]⟩
    ∧ chartxRootSignatureDesc.constantsParamIndex = 0
    ∧ chartxRootSignatureDesc.constantsParam.num32BitValues = 20 :=
  setRoot32BitConstants_records_full_array
    ⟨.recording, [.setViewportCmd 0 0 8 8]⟩ rfl 0 [1, 2, 3] 4

/-! ## Pipeline state creation (`createPipelineState` in DX12Native.cpp)

The entry point resolves the device and root-signature handles
(returning 0 when either is null), reads `numAttrs` as the length of the
`formats` array, then fills `inputLayout[i]` with `formatsData[i]` and
`offsetsData[i]` for every `i < numAttrs` — without ever comparing the
two array lengths.  When `offsets` is shorter than `formats` the loop
reads `offsetsData[i]` past the end of the array (undefined behaviour,
modelled as the distinguished outcome `oobRead`); when `offsets` is
longer the extra entries are silently ignored and creation proceeds.
`psoCreateOk` is the oracle for the driver call
`CreateGraphicsPipelineState`; on success the PSO is stored in the
registry, which returns a non-zero handle (outcome `created`). -/

inductive PSOResult where
  | nullHandle
  | created
  | oobRead
deriving Repr, DecidableEq

/-- The input-layout loop: pairs `formatsData[i]` with `offsetsData[i]`
for `i < formats.length`; reading past the end of `offsets` is the
out-of-bounds case. -/
def buildInputLayout : List Int → List Int → Option (List (Int × Int))
  | [], _ => some []
  | _ :: _, [] => none
  | f :: fs, o :: os => (buildInputLayout fs os).map (fun rest => (f, o) :: rest)

def createPipelineState (deviceOk rootSigOk : Bool)
    (formats offsets : List Int) (psoCreateOk : Bool) : PSOResult :=
  if deviceOk && rootSigOk then
    match buildInputLayout formats offsets with
    | none => .oobRead
    | some _ => if psoCreateOk then .created else .nullHandle
  else .nullHandle

/-- C6 (code bug evidence): with a valid device and root signature,
mismatched `formats`/`offsets` lengths never produce the null handle the
specification requires — two formats with one offset make the loop read
`offsetsData[1]` out of bounds, and one format with two offsets simply
proceeds to create the PSO and return a non-zero handle.  A subsequent
call with matching lengths behaves as if the mismatched call had not
happened, since the call writes no state before the driver call. -/
theorem createPipelineState_no_length_check :
    createPipelineState true true [87, 28] [0] true = .oobRead
    ∧ createPipelineState true true [87] [0, 12] true = .created
    ∧ createPipelineState true true [87] [0, 12] true ≠ .nullHandle
    ∧ createPipelineState true true [87, 28] [0, 12] true = .created := by
  decide

/-! ## Adapter selection (`isAvailable` / `createDevice` in DX12Native.cpp)

Both entry points create a DXGI factory, then walk the adapters in
enumeration order, `continue` past every adapter with the
`DXGI_ADAPTER_FLAG_SOFTWARE` flag, and attempt `D3D12CreateDevice` at
`D3D_FEATURE_LEVEL_12_0` on the rest.  `isAvailable` returns true at the
first success; `createDevice` stores the created device in the registry
and returns its handle, or 0 when the factory fails or no adapter
qualifies.  The enumeration and the per-adapter creation outcomes are
the environment oracles. -/

structure AdapterDesc where
  software : Bool
  createDeviceOk : Bool
deriving Repr, DecidableEq

structure DxgiEnv where
  factoryOk : Bool
  adapters : List AdapterDesc
deriving Repr, DecidableEq

/-- The adapter loop of `isAvailable`. -/
def isAvailableLoop : List AdapterDesc → Bool
  | [] => false
  | a :: rest =>
    if a.software then isAvailableLoop rest
    else if a.createDeviceOk then true
    else isAvailableLoop rest

def isAvailable (env : DxgiEnv) : Bool :=
  if env.factoryOk then isAvailableLoop env.adapters else false

/-- The adapter loop of `createDevice`, returning the index of the
adapter whose device is stored. -/
def createDeviceLoop : List AdapterDesc → Nat → Option Nat
  | [], _ => none
  | a :: rest, i =>
    if a.software then createDeviceLoop rest (i + 1)
    else if a.createDeviceOk then some i
    else createDeviceLoop rest (i + 1)

/-- `createDevice`: returns the handle, the updated registry, and the
index of the adapter used (the created `ID3D12Device` is stored as an
opaque object carrying that index). -/
def createDevice (env : DxgiEnv) (st : HandleManagerState) :
    Nat × HandleManagerState × Option Nat :=
  if env.factoryOk then
    match createDeviceLoop env.adapters 0 with
    | some i => ((st.store (some i)).1, (st.store (some i)).2, some i)
    | none => (0, st, none)
  else (0, st, none)

/-- Modelled from the spec (refinement side of C8): the first adapter,
in enumeration order, that is not software/emulated and for which device
creation at the minimum feature tier succeeds. -/
def specFirstCapableAdapter : List AdapterDesc → Option Nat
  | [] => none
  | a :: rest =>
    if !a.software && a.createDeviceOk then some 0
    else (specFirstCapableAdapter rest).map (fun j => j + 1)

theorem createDeviceLoop_eq_spec (l : List AdapterDesc) (i : Nat) :
    createDeviceLoop l i = (specFirstCapableAdapter l).map (fun j => j + i) := by
  induction l generalizing i with
  | nil => rfl
  | cons a rest ih =>
    unfold createDeviceLoop specFirstCapableAdapter
    by_cases hs : a.software
    · rw [if_pos hs, if_neg (by simp [hs]), ih (i + 1), Option.map_map]
      congr 1
      funext j
      simp only [Function.comp]
      omega
    · by_cases hc : a.createDeviceOk
      · rw [if_neg hs, if_pos hc, if_pos (by simp [hs, hc])]
        simp
      · rw [if_neg hs, if_neg hc, if_neg (by simp [hs, hc]), ih (i + 1),
          Option.map_map]
        congr 1
        funext j
        simp only [Function.comp]
        omega

theorem isAvailableLoop_eq_spec (l : List AdapterDesc) :
    isAvailableLoop l = (specFirstCapableAdapter l).isSome := by
  induction l with
  | nil => rfl
  | cons a rest ih =>
    unfold isAvailableLoop specFirstCapableAdapter
    by_cases hs : a.software
    · rw [if_pos hs, if_neg (by simp [hs]), ih]
      cases specFirstCapableAdapter rest <;> rfl
    · by_cases hc : a.createDeviceOk
      · rw [if_neg hs, if_pos hc, if_pos (by simp [hs, hc])]
        rfl
      · rw [if_neg hs, if_neg hc, if_neg (by simp [hs, hc]), ih]
        cases specFirstCapableAdapter rest <;> rfl

/-- C8: in every registry state reachable from the initial one,
`createDevice` uses exactly the first non-software adapter for which
device creation at the minimum feature tier succeeds (none when the
factory fails or no adapter qualifies, in which case it returns the
null handle raising nothing), and `isAvailable`, which applies the
identical selection logic, returns true precisely when `createDevice`
returns a non-zero handle. -/
theorem isAvailable_iff_createDevice (env : DxgiEnv) (ops : List RegOp) :
    (isAvailable env = true
      ↔ (createDevice env (runOps ops HandleManagerState.start)).1 ≠ 0)
    ∧ (createDevice env (runOps ops HandleManagerState.start)).2.2
        = (if env.factoryOk then specFirstCapableAdapter env.adapters
           else none) := by
  have h1 : 1 ≤ (runOps ops HandleManagerState.start).nextHandle :=
    (regInv_runOps regInv_start ops).1
  unfold isAvailable createDevice
  cases hf : env.factoryOk with
  | false => simp
  | true =>
    rw [createDeviceLoop_eq_spec env.adapters 0, isAvailableLoop_eq_spec]
    cases hspec : specFirstCapableAdapter env.adapters with
    | none => simp
    | some i =>
      simp only [Option.map_some, Option.isSome_some, if_true]
      constructor
      · constructor
        · intro _
          show (runOps ops HandleManagerState.start).nextHandle ≠ 0
          omega
        · intro _
          trivial
      · rfl
